import Mathlib

/-!
Verification of the crystallization pipeline of the `pcl-extension` repository.

The Python sources are shallowly embedded as follows:

* `src/crypto_utils.py` — Fernet authenticated encryption is modelled
  symbolically (`Ciphertext`), since the cipher itself is library code
  outside the repository; the model captures exactly the contract the code
  relies on: decrypting with the key used for encryption returns the
  plaintext, anything else (wrong key, tampered blob) raises.
* `src/supabase_client.py` — the two Supabase tables are modelled as lists
  of rows inside a `Db` state record; the backend assigns strictly
  increasing `created_at` timestamps and fresh ids (`nextTime`/`nextId`).
  `order("created_at", ...)` is modelled by insertion sort on `created_at`.
  Exceptions are modelled with `Except`; the `handle_db_errors` decorator
  is translated as a function from `Except` computations to plain values.
* `src/crystallizer.py` — `finalize_summary`, with the language model as a
  parameter `model : String → Except String String` (an `Except.error`
  models `generate_content` raising).  Python's `json.loads`/`json.dumps`
  are modelled by an executable JSON parser/serializer restricted to the
  shapes the pipeline handles (strings and objects); `str.strip`,
  `str.lstrip("```json")` and `str.rstrip("```")` are modelled faithfully
  as character-set strips (Python's `lstrip`/`rstrip` take a character
  set, not a prefix/suffix).
* `src/utils.py` — `load_summarize_prompt` reads a template file; the file
  content is a parameter (`Option String`, `none` = `FileNotFoundError`,
  which the Python code turns into a fallback template).
* `src/app.py` — the sidebar button handlers for "New Chat" and for
  selecting an existing conversation, acting on the Streamlit session
  state and the database state.
-/

namespace PCL

/-- Python whitespace for `str.strip()` (space, tab, newline, carriage
return, vertical tab, form feed). -/
def pyWs (c : Char) : Bool :=
  (c == ' ') || (c == '\t') || (c == '\n') || (c == '\r') || (c == '\x0b') || (c == '\x0c')

/-- Left half of Python `str.strip()` on a character list. -/
def pyLstripWs (l : List Char) : List Char := l.dropWhile pyWs

/-- Right half of Python `str.strip()` on a character list. -/
def pyRstripWs (l : List Char) : List Char := List.rdropWhile pyWs l

/-- Python `str.strip()` on a character list. -/
def pyStripWs (l : List Char) : List Char := pyRstripWs (pyLstripWs l)

/-- Python `str.lstrip(chars)`: drop leading characters belonging to the
set `s` (Python treats the argument as a character set). -/
def pyLstripSet (s : List Char) (l : List Char) : List Char :=
  l.dropWhile (fun c => decide (c ∈ s))

/-- Python `str.rstrip(chars)`: drop trailing characters belonging to the
set `s`. -/
def pyRstripSet (s : List Char) (l : List Char) : List Char :=
  List.rdropWhile (fun c => decide (c ∈ s)) l

/-- The backtick character. -/
def backtick : Char := Char.ofNat 96

/-- The opening curly brace character. -/
def lbrace : Char := Char.ofNat 123

/-- The closing curly brace character. -/
def rbrace : Char := Char.ofNat 125

/-- Character set of the Python literal passed to `lstrip` on line 28 of
`src/crystallizer.py` (the characters of three backticks followed by
`json`). -/
def fenceLstripSet : List Char := [backtick, 'j', 's', 'o', 'n']

/-- Character set of the Python literal passed to `rstrip` on line 28 of
`src/crystallizer.py` (three backticks, i.e. the single backtick
character). -/
def fenceRstripSet : List Char := [backtick]

/-- Line 28 of `src/crystallizer.py`:
`response.text.strip().lstrip("<fence>json").rstrip("<fence>")` where
`<fence>` is three backticks, on a character list. -/
def pySanitizeL (l : List Char) : List Char :=
  pyRstripSet fenceRstripSet (pyLstripSet fenceLstripSet (pyStripWs l))

/-- Line 28 of `src/crystallizer.py` on a string. -/
def pySanitize (s : String) : String := String.mk (pySanitizeL s.data)

/-- JSON values as the crystallization pipeline uses them: strings and
objects (Python `json.loads` also handles numbers, arrays, booleans; the
pipeline's contract only involves objects of string fields, so the model
is restricted to the shapes that can reach `insert_finalized_summary`). -/
inductive Json where
  | jstr : String → Json
  | jobj : List (String × Json) → Json

/-- Parse the body of a JSON string after its opening quote, up to the
closing quote (escape sequences are outside the model's scope). -/
def parseStringBody : List Char → Option (List Char × List Char)
  | [] => none
  | c :: rest =>
    if c = '"' then some ([], rest)
    else
      match parseStringBody rest with
      | some (s, r) => some (c :: s, r)
      | none => none

/-- Skip JSON whitespace. -/
def skipWs (l : List Char) : List Char := l.dropWhile pyWs

mutual

/-- Recursive-descent parser for the modelled JSON values; the `Nat` fuel
bounds nesting depth and is instantiated large enough to be irrelevant. -/
def parseValue : Nat → List Char → Option (Json × List Char)
  | 0, _ => none
  | fuel + 1, l =>
    match skipWs l with
    | [] => none
    | c :: rest =>
      if c = '"' then
        match parseStringBody rest with
        | some (s, r) => some (Json.jstr (String.mk s), r)
        | none => none
      else if c = lbrace then
        match skipWs rest with
        | [] => none
        | c2 :: r2 =>
          if c2 = rbrace then some (Json.jobj [], r2)
          else
            match parseFields fuel (c2 :: r2) with
            | some (fs, r3) => some (Json.jobj fs, r3)
            | none => none
      else none

/-- Parse a nonempty comma-separated field list of a JSON object,
consuming the closing brace. -/
def parseFields : Nat → List Char → Option (List (String × Json) × List Char)
  | 0, _ => none
  | fuel + 1, l =>
    match skipWs l with
    | [] => none
    | c :: rest =>
      if c = '"' then
        match parseStringBody rest with
        | some (k, r1) =>
          match skipWs r1 with
          | [] => none
          | c2 :: r2 =>
            if c2 = ':' then
              match parseValue fuel r2 with
              | some (v, r3) =>
                match skipWs r3 with
                | [] => none
                | c3 :: r4 =>
                  if c3 = ',' then
                    match parseFields fuel r4 with
                    | some (fs, r5) => some ((String.mk k, v) :: fs, r5)
                    | none => none
                  else if c3 = rbrace then some ([(String.mk k, v)], r4)
                  else none
              | none => none
            else none
        | none => none
      else none

end

/-- Modelled from Python's `json.loads`: parse one value, allowing
surrounding whitespace and nothing else (extra trailing data is a
`JSONDecodeError`, i.e. `none`). -/
def jsonLoads (s : String) : Option Json :=
  match parseValue ((pyStripWs s.data).length + 1) (pyStripWs s.data) with
  | some (v, []) => some v
  | _ => none

mutual

/-- Modelled from Python's `json.dumps` (with `ensure_ascii=False`) on the
modelled JSON values, with the default `", "` / `": "` separators. -/
def jsonDumps : Json → String
  | Json.jstr s => "\"" ++ s ++ "\""
  | Json.jobj fs => "\x7b" ++ String.intercalate ", " (jsonDumpsEntries fs) ++ "\x7d"

/-- Serialized `"key": value` entries of a JSON object, in order. -/
def jsonDumpsEntries : List (String × Json) → List String
  | [] => []
  | kv :: rest => ("\"" ++ kv.1 ++ "\": " ++ jsonDumps kv.2) :: jsonDumpsEntries rest

end

/-- Modelled from the spec: the Fernet cipher used by
`src/crypto_utils.py` is library code outside the repository; it is an
authenticated-encryption scheme, so a ciphertext is either a well-formed
encryption of a message under a key, or an arbitrary (tampered/garbage)
blob that fails authentication under every key. -/
inductive Ciphertext where
  | enc : Nat → String → Ciphertext
  | raw : String → Ciphertext
deriving DecidableEq

/-- `encrypt_message` from `src/crypto_utils.py` (lines 10-12): encrypt
`message` under `key` with Fernet. -/
def encrypt_message (message : String) (key : Nat) : Ciphertext :=
  Ciphertext.enc key message

/-- `decrypt_message` from `src/crypto_utils.py` (lines 14-16): `none`
models `cryptography.fernet.InvalidToken` (a `DecryptionError`) being
raised; Fernet authenticates, so decryption under a key other than the
encrypting one, or of a tampered blob, fails rather than returning
garbage. -/
def decrypt_message (c : Ciphertext) (key : Nat) : Option String :=
  match c with
  | Ciphertext.enc k m => if k = key then some m else none
  | Ciphertext.raw _ => none

/-- A row of the raw-messages table (`TABLE_L5_RAW_MESSAGES`); `created_at`
is assigned by the backend. -/
structure L5Row where
  conversation_id : String
  role : String
  content : Ciphertext
  user_id : String
  created_at : Nat
deriving DecidableEq

/-- A row of the structured-records table (`TABLE_L4_STRUCTURED_RECORDS`);
`id` and `created_at` are assigned by the backend. -/
structure L4Row where
  id : Nat
  user_id : String
  conversation_id : String
  summary_data : Ciphertext
  status : String
  supersedes_id : Option Nat
  created_at : Nat
deriving DecidableEq

/-- The database state: the two tables plus the backend's fresh-id and
fresh-timestamp counters (timestamps are strictly increasing across
inserts, ids are fresh). -/
structure Db where
  l5 : List L5Row
  l4 : List L4Row
  nextId : Nat
  nextTime : Nat
deriving DecidableEq

/-- A decrypted chat message as the application handles it. -/
structure Msg where
  role : String
  content : String
deriving DecidableEq

/-- Ascending `created_at` order on message rows, as requested by
`.order("created_at", desc=False)`. -/
def l5Le (a b : L5Row) : Prop := a.created_at ≤ b.created_at

instance : DecidableRel l5Le := fun a b => inferInstanceAs (Decidable (a.created_at ≤ b.created_at))

instance : IsTotal L5Row l5Le := ⟨fun a b => Nat.le_total a.created_at b.created_at⟩

instance : IsTrans L5Row l5Le := ⟨fun _ _ _ h1 h2 => Nat.le_trans h1 h2⟩

/-- Descending `created_at` order on summary rows, as requested by
`.order("created_at", desc=True)`. -/
def l4Ge (a b : L4Row) : Prop := b.created_at ≤ a.created_at

instance : DecidableRel l4Ge := fun a b => inferInstanceAs (Decidable (b.created_at ≤ a.created_at))

instance : IsTotal L4Row l4Ge := ⟨fun a b => Nat.le_total b.created_at a.created_at⟩

instance : IsTrans L4Row l4Ge := ⟨fun _ _ _ h1 h2 => Nat.le_trans h2 h1⟩

/-- The backend's `order("created_at", desc=False)` on the filtered
message rows. -/
def orderByCreatedAtAsc (rows : List L5Row) : List L5Row :=
  List.insertionSort l5Le rows

/-- The backend's `order("created_at", desc=True)` on the filtered
summary rows. -/
def orderByCreatedAtDesc (rows : List L4Row) : List L4Row :=
  List.insertionSort l4Ge rows

/-- The `handle_db_errors` decorator from `src/supabase_client.py`
(lines 11-21): run the wrapped operation; if it raises, show the error in
the UI and return the default value instead of propagating. -/
def handle_db_errors (default : α) (action : Except String α) : α :=
  match action with
  | Except.ok a => a
  | Except.error _ => default

/-- The per-message `try/except` body of the loop in
`load_messages_for_conversation` (lines 39-44 of
`src/supabase_client.py`): decrypt one row, substituting the sentinel on
a decryption failure. -/
def decryptRow (key : Nat) (r : L5Row) : Msg :=
  match decrypt_message r.content key with
  | some c => { role := r.role, content := c }
  | none => { role := r.role, content := "[Cannot Decrypt Message]" }

/-- Body of `load_messages_for_conversation` (lines 34-45 of
`src/supabase_client.py`) before the decorator: select the conversation's
rows ordered by `created_at` ascending and decrypt each one. -/
def load_messages_raw (key : Nat) (conversation_id : String) (db : Db) :
    Except String (List Msg) :=
  Except.ok
    ((orderByCreatedAtAsc (db.l5.filter (fun r => r.conversation_id == conversation_id))).map
      (decryptRow key))

/-- `load_messages_for_conversation` from `src/supabase_client.py`
(decorated with `handle_db_errors(default_return_value=[])`). -/
def load_messages_for_conversation (key : Nat) (conversation_id : String) (db : Db) : List Msg :=
  handle_db_errors [] (load_messages_raw key conversation_id db)

/-- The `order("created_at", desc=True).limit(1)` query of
`get_latest_l4_record` (line 67 of `src/supabase_client.py`). -/
def latestL4 (conversation_id : String) (db : Db) : Option L4Row :=
  (orderByCreatedAtDesc (db.l4.filter (fun r => r.conversation_id == conversation_id))).head?

/-- Body of `get_latest_l4_record` (lines 64-72 of
`src/supabase_client.py`) before the decorator; the `Except.error` models
`decrypt_message` raising on an undecryptable record. -/
def get_latest_l4_record_raw (key : Nat) (conversation_id : String) (db : Db) :
    Except String (Option Nat × Option String) :=
  match latestL4 conversation_id db with
  | some r =>
    match decrypt_message r.summary_data key with
    | some s => Except.ok (some r.id, some s)
    | none => Except.error "DecryptionError"
  | none => Except.ok (none, none)

/-- `get_latest_l4_record` from `src/supabase_client.py`, decorated with
`handle_db_errors(default_return_value=(None, None))`. -/
def get_latest_l4_record (key : Nat) (conversation_id : String) (db : Db) :
    Option Nat × Option String :=
  handle_db_errors (none, none) (get_latest_l4_record_raw key conversation_id db)

/-- `insert_finalized_summary` from `src/supabase_client.py` (lines
74-85): encrypt the serialized summary object and insert one new row with
`status="finalized"` and the given `supersedes_id`.  Backend transport
failures (which the decorator would swallow) are outside the model: the
insert itself always succeeds. -/
def insert_finalized_summary (key : Nat) (conversation_id user_id : String)
    (summary_obj : Json) (supersedes_id : Option Nat) (db : Db) : Db :=
  { db with
    l4 := db.l4 ++
      [{ id := db.nextId, user_id := user_id, conversation_id := conversation_id,
         summary_data := encrypt_message (jsonDumps summary_obj) key,
         status := "finalized", supersedes_id := supersedes_id,
         created_at := db.nextTime }],
    nextId := db.nextId + 1,
    nextTime := db.nextTime + 1 }

/-- `create_interim_summary` from `src/supabase_client.py` (lines 47-62):
insert one `status="interim"` row whose draft fields are derived from the
first message's content (no `supersedes_id` column is supplied, so it is
unset). -/
def create_interim_summary (key : Nat) (conversation_id user_id : String)
    (first_message_content : String) (db : Db) : Db :=
  { db with
    l4 := db.l4 ++
      [{ id := db.nextId, user_id := user_id, conversation_id := conversation_id,
         summary_data := encrypt_message (jsonDumps (Json.jobj
           [("why_summary", Json.jstr
              ("[下書き] " ++ String.mk (pyStripWs (first_message_content.data.take 50)) ++ "...")),
            ("what_summary", Json.jstr (String.mk (pyStripWs (first_message_content.data.take 100)))),
            ("how_summary", Json.jstr "")])) key,
         status := "interim", supersedes_id := none,
         created_at := db.nextTime }],
    nextId := db.nextId + 1,
    nextTime := db.nextTime + 1 }

/-- `load_summarize_prompt` from `src/utils.py` (lines 14-22): the
template file's content is the parameter `tmplFile` (`none` models
`FileNotFoundError`, in which case the hard-coded fallback template is
returned). -/
def load_summarize_prompt (tmplFile : Option String) : String :=
  match tmplFile with
  | some t => t
  | none => "Summarize the following conversation: {conversation_text}"

/-- Python `template.format(conversation_text=..., previous_summary=...)`
as used on line 24 of `src/crystallizer.py`: substitute the two named
placeholders. -/
def pyFormat (template conversation_text previous_summary : String) : String :=
  (template.replace "{conversation_text}" conversation_text).replace
    "{previous_summary}" previous_summary

/-- Line 21 of `src/crystallizer.py`: flatten the decrypted messages into
role-prefixed lines joined by newlines. -/
def conversationText (messages : List Msg) : String :=
  String.intercalate "\n" (messages.map (fun msg => msg.role ++ ": " ++ msg.content))

/-- The `try` block of `finalize_summary` (lines 22-32 of
`src/crystallizer.py`): build the prompt, call the model, sanitize and
parse the response, and insert the finalized record.  `prev` is the pair
returned by `get_latest_l4_record`.  An `Except.error` is an exception
inside the `try` block (model invocation failure or
`json.JSONDecodeError`). -/
def crystallizeAttempt (model : String → Except String String) (tmplFile : Option String)
    (key : Nat) (conversation_id user_id : String)
    (prev : Option Nat × Option String) (ctext : String) (db : Db) :
    Except String (Db × Option String) :=
  match model (pyFormat (load_summarize_prompt tmplFile) ctext (prev.2.getD "")) with
  | Except.error e => Except.error e
  | Except.ok text =>
    match jsonLoads (pySanitize text) with
    | some summary_obj =>
      Except.ok (insert_finalized_summary key conversation_id user_id summary_obj prev.1 db, none)
    | none => Except.error "JSONDecodeError"

/-- `finalize_summary` from `src/crystallizer.py` (lines 10-35).  The
result is `Except.ok (db', err)`: `db'` is the database afterwards and
`err` the `st.error` message displayed by the `except` branch (`none`
when no error was shown); the Python function itself always returns
`None`, so an `Except.error` result would model an exception escaping to
the caller. -/
def finalize_summary (model : String → Except String String) (tmplFile : Option String)
    (key : Nat) (conversation_id user_id : String) (db : Db) :
    Except String (Db × Option String) :=
  if load_messages_for_conversation key conversation_id db = [] then Except.ok (db, none)
  else
    match
      crystallizeAttempt model tmplFile key conversation_id user_id
        (get_latest_l4_record key conversation_id db)
        (conversationText (load_messages_for_conversation key conversation_id db)) db
    with
    | Except.ok r => Except.ok r
    | Except.error e => Except.ok (db, some ("Failed to finalize summary: " ++ e))

/-- The Streamlit session state that the `src/app.py` handlers mutate:
the in-memory message buffer and the active conversation id. -/
structure SessionState where
  messages : List Msg
  conversation_id : String
deriving DecidableEq

/-- `load_messages_for_conversation` as defined inside `src/app.py`
(lines 149-163): same query-and-decrypt loop over the message table, with
the outer `try/except` returning `[]` on a backend failure. -/
def app_load_messages_for_conversation (conversation_id : String) (key : Nat) (db : Db) :
    List Msg :=
  handle_db_errors []
    (Except.ok
      ((orderByCreatedAtAsc (db.l5.filter (fun r => r.conversation_id == conversation_id))).map
        (decryptRow key)))

/-- The "New Chat" button handler from `src/app.py` (lines 174-177): it
empties the in-memory buffer and allocates a fresh conversation id
(`freshId` models `str(uuid.uuid4())`), then reruns; it performs no
database operation and does not invoke the crystallizer. -/
def newChatButtonHandler (freshId : String) (s : SessionState) (db : Db) :
    SessionState × Db :=
  ({ messages := [], conversation_id := freshId }, db)

/-- The conversation-select button handler from `src/app.py` (lines
180-185): it loads the target conversation's messages into the buffer and
makes it active, then reruns; it performs no database write and does not
invoke the crystallizer. -/
def selectConversationButtonHandler (targetCid : String) (key : Nat)
    (s : SessionState) (db : Db) : SessionState × Db :=
  ({ messages := app_load_messages_for_conversation targetCid key db,
     conversation_id := targetCid }, db)

/-- A sample database for concrete evaluations: one stored message in
conversation `"conv-a"` encrypted under key `0`, no summary records. -/
def sampleDb : Db :=
  { l5 := [{ conversation_id := "conv-a", role := "user",
             content := encrypt_message "hello world" 0, user_id := "u1", created_at := 0 }],
    l4 := [], nextId := 1, nextTime := 1 }

/-- A model stub that always answers in unstructured prose (fails JSON
parsing). -/
def proseModel : String → Except String String :=
  fun _ => Except.ok "The conversation is a greeting."

/-- A model stub that always answers with the empty JSON object — valid
JSON, but missing all three summary fields. -/
def emptyObjModel : String → Except String String :=
  fun _ => Except.ok "\x7b\x7d"

/-- A model stub that always answers with a well-formed summary object
holding the three expected fields. -/
def goodModel : String → Except String String :=
  fun _ => Except.ok
    "\x7b\"why_summary\": \"w\", \"what_summary\": \"x\", \"how_summary\": \"y\"\x7d"

/-- The JSON object produced by `goodModel`. -/
def goodSummaryObj : Json :=
  Json.jobj [("why_summary", Json.jstr "w"), ("what_summary", Json.jstr "x"),
             ("how_summary", Json.jstr "y")]

/-- A model response consisting of content wrapped in code-fence markers,
as in the scenario of §8 of the spec: three backticks and `json`, a
newline, the content, a newline, three backticks. -/
def wrapFence (s : String) : String := "```json\n" ++ s ++ "\n```"

/-- A sample database with two stored messages in conversation
`"conv-a"`: the first encrypted under key `0`, the second a tampered blob
that decrypts under no key. -/
def sampleDbMixed : Db :=
  { l5 := [{ conversation_id := "conv-a", role := "user",
             content := encrypt_message "hello" 0, user_id := "u1", created_at := 0 },
           { conversation_id := "conv-a", role := "assistant",
             content := Ciphertext.raw "corrupted", user_id := "u1", created_at := 1 }],
    l4 := [], nextId := 1, nextTime := 2 }

/-- A sample database whose only summary record for `"conv-a"` is
encrypted under key `1`, hence undecryptable under key `0`. -/
def sampleDbUndec : Db :=
  { l5 := [{ conversation_id := "conv-a", role := "user",
             content := encrypt_message "hello world" 0, user_id := "u1", created_at := 0 }],
    l4 := [{ id := 1, user_id := "u1", conversation_id := "conv-a",
             summary_data := encrypt_message "old summary" 1, status := "finalized",
             supersedes_id := none, created_at := 1 }],
    nextId := 2, nextTime := 2 }

/-! ### Helper lemmas -/

/-- Dropping from the left is a no-op when the head fails the predicate. -/
theorem dropWhile_head_not {α : Type} {p : α → Bool} {l : List α} {a : α}
    (h1 : l.head? = some a) (h2 : p a = false) : l.dropWhile p = l := by
  cases l with
  | nil => simp at h1
  | cons b t =>
    have hb : b = a := by simpa using h1
    exact List.dropWhile_cons_of_neg (by rw [hb, h2]; exact Bool.false_ne_true)

/-- Dropping from the right is a no-op when the last element fails the
predicate. -/
theorem rdropWhile_getLast_not {α : Type} {p : α → Bool} {l : List α} {a : α}
    (h1 : l.getLast? = some a) (h2 : p a = false) : List.rdropWhile p l = l := by
  have hne : l ≠ [] := by
    intro h
    rw [h] at h1
    simp at h1
  have hga : l.getLast hne = a := by
    have h3 := List.getLast?_eq_getLast l hne
    rw [h3] at h1
    exact Option.some.inj h1
  have hexp : l.dropLast ++ [l.getLast hne] = l := List.dropLast_append_getLast hne
  conv_lhs => rw [← hexp]
  rw [List.rdropWhile_concat_neg p l.dropLast (l.getLast hne)
    (by rw [hga, h2]; exact Bool.false_ne_true)]
  exact hexp

/-- Python `strip()` ignores a newline added on each side. -/
theorem pyStripWs_newline_wrap (l : List Char) :
    pyStripWs ('\n' :: (l ++ ['\n'])) = pyStripWs l := by
  unfold pyStripWs pyLstripWs pyRstripWs
  rw [List.dropWhile_cons_of_pos (by decide), List.dropWhile_append]
  split
  · next h =>
    rw [List.isEmpty_iff.mp h, show List.dropWhile pyWs ['\n'] = [] from by decide]
  · exact List.rdropWhile_concat_pos pyWs (List.dropWhile pyWs l) '\n' (by decide)

/-- `jsonLoads` only looks at the whitespace-stripped character list. -/
theorem jsonLoads_mk_congr (X Y : List Char) (h : pyStripWs X = pyStripWs Y) :
    jsonLoads (String.mk X) = jsonLoads (String.mk Y) := by
  unfold jsonLoads
  rw [show (String.mk X).data = X from rfl, show (String.mk Y).data = Y from rfl, h]

/-- Explicit character list of the code-fence wrapping. -/
theorem wrapFence_data (s : String) :
    (wrapFence s).data
      = backtick :: backtick :: backtick :: 'j' :: 's' :: 'o' :: 'n' :: '\n' ::
        (s.data ++ ('\n' :: backtick :: backtick :: backtick :: [])) := by
  have h1 : ("```json\n" : String).data
      = [backtick, backtick, backtick, 'j', 's', 'o', 'n', '\n'] := by decide
  have h2 : ("\n```" : String).data = ['\n', backtick, backtick, backtick] := by decide
  have h3 : (wrapFence s).data = ("```json\n" : String).data ++ s.data ++ ("\n```" : String).data := by
    simp [wrapFence, String.data_append]
  rw [h3, h1, h2]
  simp

/-- The sanitization step of line 28 of `src/crystallizer.py` removes the
code-fence wrapping, leaving the wrapped content surrounded by the two
newlines of the wrapping. -/
theorem pySanitizeL_wrapFence (s : String) :
    pySanitizeL ((wrapFence s).data) = '\n' :: (s.data ++ ['\n']) := by
  have hdata := wrapFence_data s
  have hshape : (wrapFence s).data
      = (backtick :: backtick :: backtick :: 'j' :: 's' :: 'o' :: 'n' :: '\n' ::
          (s.data ++ ['\n', backtick, backtick])) ++ [backtick] := by
    rw [hdata]; simp
  have hs1 : pyStripWs ((wrapFence s).data) = (wrapFence s).data := by
    unfold pyStripWs pyLstripWs pyRstripWs
    rw [dropWhile_head_not (p := pyWs) (by rw [hdata]; rfl) (by decide)]
    rw [hshape]
    exact List.rdropWhile_concat_neg pyWs _ backtick (by decide)
  have hs2 : pyLstripSet fenceLstripSet ((wrapFence s).data)
      = '\n' :: (s.data ++ ('\n' :: backtick :: backtick :: backtick :: [])) := by
    unfold pyLstripSet
    rw [hdata]
    rw [List.dropWhile_cons_of_pos (by decide), List.dropWhile_cons_of_pos (by decide),
        List.dropWhile_cons_of_pos (by decide), List.dropWhile_cons_of_pos (by decide),
        List.dropWhile_cons_of_pos (by decide), List.dropWhile_cons_of_pos (by decide),
        List.dropWhile_cons_of_pos (by decide), List.dropWhile_cons_of_neg (by decide)]
  have hs3 : pyRstripSet fenceRstripSet
        ('\n' :: (s.data ++ ('\n' :: backtick :: backtick :: backtick :: [])))
      = '\n' :: (s.data ++ ['\n']) := by
    have hshape3 : '\n' :: (s.data ++ ('\n' :: backtick :: backtick :: backtick :: []))
        = ((((('\n' :: s.data) ++ ['\n']) ++ [backtick]) ++ [backtick]) ++ [backtick]) := by
      simp
    unfold pyRstripSet
    rw [hshape3]
    rw [List.rdropWhile_concat_pos _ _ backtick (by decide),
        List.rdropWhile_concat_pos _ _ backtick (by decide),
        List.rdropWhile_concat_pos _ _ backtick (by decide),
        List.rdropWhile_concat_neg _ _ '\n' (by decide)]
    simp
  unfold pySanitizeL
  rw [hs1, hs2, hs3]

/-- One successful crystallization run: when the conversation is
non-empty, the model's response to the crystallization prompt arrives,
and it parses, `finalize_summary` inserts exactly the finalized record
with `supersedes_id` taken from `get_latest_l4_record`. -/
theorem finalize_run (model : String → Except String String) (tmplFile : Option String)
    (key : Nat) (cid uid : String) (db : Db)
    (hmsgs : load_messages_for_conversation key cid db ≠ []) (t : String) (j : Json)
    (hmod : model (pyFormat (load_summarize_prompt tmplFile)
        (conversationText (load_messages_for_conversation key cid db))
        ((get_latest_l4_record key cid db).2.getD "")) = Except.ok t)
    (hj : jsonLoads (pySanitize t) = some j) :
    finalize_summary model tmplFile key cid uid db
      = Except.ok
          (insert_finalized_summary key cid uid j (get_latest_l4_record key cid db).1 db,
           none) := by
  simp [finalize_summary, hmsgs, crystallizeAttempt, hmod, hj]

/-- One failed crystallization run: when the model's response to the
crystallization prompt arrives but fails to parse, `finalize_summary`
reports the failure and leaves the database untouched. -/
theorem finalize_run_parse_failure (model : String → Except String String)
    (tmplFile : Option String) (key : Nat) (cid uid : String) (db : Db)
    (hmsgs : load_messages_for_conversation key cid db ≠ []) (t : String)
    (hmod : model (pyFormat (load_summarize_prompt tmplFile)
        (conversationText (load_messages_for_conversation key cid db))
        ((get_latest_l4_record key cid db).2.getD "")) = Except.ok t)
    (hj : jsonLoads (pySanitize t) = none) :
    finalize_summary model tmplFile key cid uid db
      = Except.ok (db, some ("Failed to finalize summary: " ++ "JSONDecodeError")) := by
  simp [finalize_summary, hmsgs, crystallizeAttempt, hmod, hj]

/-- The record returned by the `order desc / limit 1` query belongs to
the table and to the queried conversation. -/
theorem latestL4_mem {cid : String} {db : Db} {r : L4Row} (h : latestL4 cid db = some r) :
    r ∈ db.l4 ∧ r.conversation_id = cid := by
  unfold latestL4 orderByCreatedAtDesc at h
  have hmem : r ∈ List.insertionSort l4Ge (db.l4.filter fun x => x.conversation_id == cid) :=
    List.mem_of_mem_head? h
  have hmem2 : r ∈ db.l4.filter (fun x => x.conversation_id == cid) :=
    (List.perm_insertionSort l4Ge _).mem_iff.mp hmem
  have h3 := List.mem_filter.mp hmem2
  exact ⟨h3.1, by simpa using h3.2⟩

/-- After inserting a finalized record, the `order desc / limit 1` query
returns exactly that record, because the backend assigned it a
`created_at` strictly above every existing row's. -/
theorem latestL4_insert_finalized (key : Nat) (cid uid : String) (j : Json)
    (sup : Option Nat) (db : Db)
    (hWF : ∀ r ∈ db.l4, r.created_at < db.nextTime) :
    latestL4 cid (insert_finalized_summary key cid uid j sup db)
      = some { id := db.nextId, user_id := uid, conversation_id := cid,
               summary_data := encrypt_message (jsonDumps j) key, status := "finalized",
               supersedes_id := sup, created_at := db.nextTime } := by
  set newRow : L4Row :=
    { id := db.nextId, user_id := uid, conversation_id := cid,
      summary_data := encrypt_message (jsonDumps j) key, status := "finalized",
      supersedes_id := sup, created_at := db.nextTime } with hnew
  have hfilter : (insert_finalized_summary key cid uid j sup db).l4.filter
        (fun r => r.conversation_id == cid)
      = db.l4.filter (fun r => r.conversation_id == cid) ++ [newRow] := by
    simp [insert_finalized_summary, List.filter_append, hnew]
  unfold latestL4 orderByCreatedAtDesc
  rw [hfilter]
  set L := db.l4.filter (fun r => r.conversation_id == cid) ++ [newRow] with hL
  have hperm : List.Perm (List.insertionSort l4Ge L) L := List.perm_insertionSort _ _
  have hsorted : List.Sorted l4Ge (List.insertionSort l4Ge L) := List.sorted_insertionSort _ _
  have hne : newRow ∈ List.insertionSort l4Ge L := hperm.mem_iff.mpr (by simp [hL])
  cases hS : List.insertionSort l4Ge L with
  | nil => rw [hS] at hne; cases hne
  | cons hd tl =>
    rw [hS] at hne hperm hsorted
    have hd_mem : hd ∈ L := hperm.mem_iff.mp (List.mem_cons_self hd tl)
    have hd_eq : hd = newRow := by
      rcases List.mem_append.mp hd_mem with hdf | hdn
      · have hdl4 : hd ∈ db.l4 := (List.mem_filter.mp hdf).1
        have hlt : hd.created_at < db.nextTime := hWF hd hdl4
        rcases List.mem_cons.mp hne with he | ht
        · exact he.symm
        · have hge : l4Ge hd newRow := List.rel_of_sorted_cons hsorted newRow ht
          have : db.nextTime ≤ hd.created_at := hge
          exact absurd (lt_of_le_of_lt this hlt) (lt_irrefl _)
      · simpa using hdn
    rw [hd_eq]
    rfl

/-- After inserting a finalized record under key `key`,
`get_latest_l4_record` with the same key returns that record's id and
serialized summary. -/
theorem get_latest_after_insert (key : Nat) (cid uid : String) (j : Json)
    (sup : Option Nat) (db : Db)
    (hWF : ∀ r ∈ db.l4, r.created_at < db.nextTime) :
    get_latest_l4_record key cid (insert_finalized_summary key cid uid j sup db)
      = (some db.nextId, some (jsonDumps j)) := by
  unfold get_latest_l4_record handle_db_errors get_latest_l4_record_raw
  rw [latestL4_insert_finalized key cid uid j sup db hWF]
  simp [decrypt_message, encrypt_message]

/-- When every summary record of the conversation decrypts under the
supplied key, the id returned by `get_latest_l4_record` is the id of the
latest record, or unset if none exists. -/
theorem get_latest_fst_eq (key : Nat) (cid : String) (db : Db)
    (hdec : ∀ r ∈ db.l4, r.conversation_id = cid →
      (decrypt_message r.summary_data key).isSome) :
    (get_latest_l4_record key cid db).1 = (latestL4 cid db).map L4Row.id := by
  unfold get_latest_l4_record handle_db_errors get_latest_l4_record_raw
  cases hL : latestL4 cid db with
  | none => rfl
  | some r =>
    obtain ⟨hmem, hcid⟩ := latestL4_mem hL
    have hS := hdec r hmem hcid
    cases hd : decrypt_message r.summary_data key with
    | none => rw [hd] at hS; cases hS
    | some s' => simp [hd]

/-- Inserting a summary record does not touch the raw-messages table, so
message loading is unaffected. -/
theorem load_after_insert (key key' : Nat) (cid cid' uid : String) (j : Json)
    (sup : Option Nat) (db : Db) :
    load_messages_for_conversation key cid (insert_finalized_summary key' cid' uid j sup db)
      = load_messages_for_conversation key cid db := rfl

/-! ### Claim theorems -/

/-- Claim C5: for every message content string and every derived key,
decrypting the encryption of that content with the same key returns the
original content exactly; decrypting with a different key, or decrypting
a tampered ciphertext, fails with a decryption error (`none`) rather than
returning any value. -/
theorem c5_encrypt_decrypt_roundtrip (m tampered : String) (k k' : Nat) (hk : k ≠ k') :
    decrypt_message (encrypt_message m k) k = some m ∧
    decrypt_message (encrypt_message m k) k' = none ∧
    decrypt_message (Ciphertext.raw tampered) k = none := by
  refine ⟨?_, ?_, rfl⟩
  · simp [encrypt_message, decrypt_message]
  · simp [encrypt_message, decrypt_message, hk]

/-- Witness for C5 at concrete keys 0 and 1. -/
theorem c5_witness :
    (0 : Nat) ≠ 1 ∧
      (decrypt_message (encrypt_message "hello" 0) 0 = some "hello" ∧
       decrypt_message (encrypt_message "hello" 0) 1 = none ∧
       decrypt_message (Ciphertext.raw "junk") 0 = none) :=
  ⟨by decide, c5_encrypt_decrypt_roundtrip "hello" "junk" 0 1 (by decide)⟩

/-- Claim C7: for every conversation whose loaded message sequence is
empty, the Crystallizer performs no Summary Store writes and no model
invocation: it returns without error and without side effects.  The
model function is universally quantified and absent from the fixed
result, so the model is observationally never invoked. -/
theorem c7_empty_conversation_is_noop (model : String → Except String String)
    (tmplFile : Option String) (key : Nat) (cid uid : String) (db : Db)
    (hempty : load_messages_for_conversation key cid db = []) :
    finalize_summary model tmplFile key cid uid db = Except.ok (db, none) := by
  simp [finalize_summary, hempty]

/-- Witness for C7: conversation `"conv-b"` has no stored messages in
`sampleDb`, and crystallizing it is a no-op. -/
theorem c7_witness :
    load_messages_for_conversation 0 "conv-b" sampleDb = [] ∧
      finalize_summary emptyObjModel none 0 "conv-b" "u1" sampleDb
        = Except.ok (sampleDb, none) :=
  ⟨rfl, c7_empty_conversation_is_noop emptyObjModel none 0 "conv-b" "u1" sampleDb rfl⟩

/-- Claim C9: the Crystallizer entry point never propagates an exception
to its caller, for every behavior of the model and every database state:
the result is always `Except.ok` (the Python function falls through to an
implicit `return None` in every branch), with failures reported only via
the displayed error message. -/
theorem c9_finalize_summary_never_raises (model : String → Except String String)
    (tmplFile : Option String) (key : Nat) (cid uid : String) (db : Db) :
    ∃ db' err, finalize_summary model tmplFile key cid uid db = Except.ok (db', err) := by
  by_cases hmsgs : load_messages_for_conversation key cid db = []
  · exact ⟨db, none, by simp [finalize_summary, hmsgs]⟩
  · cases hA : crystallizeAttempt model tmplFile key cid uid
        (get_latest_l4_record key cid db)
        (conversationText (load_messages_for_conversation key cid db)) db with
    | error e =>
      exact ⟨db, some ("Failed to finalize summary: " ++ e),
        by simp [finalize_summary, hmsgs, hA]⟩
    | ok r => exact ⟨r.1, r.2, by simp [finalize_summary, hmsgs, hA]⟩

/-- Claim C3 (code evaluation): the `src/app.py` handlers that abandon
the active conversation — the "New Chat" button and the
conversation-select button — leave the database completely unchanged for
every session state, including states with buffered messages: no
crystallizer invocation and no Summary Store write happens at the
switch; the New Chat handler simply discards the buffer. -/
theorem c3_switch_handlers_never_invoke_crystallizer (freshId targetCid : String)
    (key : Nat) (s : SessionState) (db : Db) :
    (newChatButtonHandler freshId s db).2 = db ∧
    (newChatButtonHandler freshId s db).1.messages = [] ∧
    (selectConversationButtonHandler targetCid key s db).2 = db :=
  ⟨rfl, rfl, rfl⟩

/-- Claim C1: if parsing the model's response during crystallization
fails (for every prompt, any response the model returns fails JSON
parsing after sanitization), the Crystallizer writes no Summary Store
record at all, and `get_latest_l4_record` on the resulting database
returns the same record as before the attempt. -/
theorem c1_parse_failure_preserves_summary_store (model : String → Except String String)
    (tmplFile : Option String) (key : Nat) (cid uid : String) (db : Db)
    (hpf : ∀ p t, model p = Except.ok t → jsonLoads (pySanitize t) = none) :
    ∃ err, finalize_summary model tmplFile key cid uid db = Except.ok (db, err) ∧
      ∀ db' e, finalize_summary model tmplFile key cid uid db = Except.ok (db', e) →
        get_latest_l4_record key cid db' = get_latest_l4_record key cid db := by
  have hrun : ∃ err, finalize_summary model tmplFile key cid uid db = Except.ok (db, err) := by
    by_cases hmsgs : load_messages_for_conversation key cid db = []
    · exact ⟨none, by simp [finalize_summary, hmsgs]⟩
    · cases hmod : model (pyFormat (load_summarize_prompt tmplFile)
          (conversationText (load_messages_for_conversation key cid db))
          ((get_latest_l4_record key cid db).2.getD "")) with
      | error e =>
        exact ⟨some ("Failed to finalize summary: " ++ e),
          by simp [finalize_summary, hmsgs, crystallizeAttempt, hmod]⟩
      | ok t =>
        exact ⟨some ("Failed to finalize summary: " ++ "JSONDecodeError"),
          finalize_run_parse_failure model tmplFile key cid uid db hmsgs t hmod
            (hpf _ _ hmod)⟩
  obtain ⟨err, hrun⟩ := hrun
  refine ⟨err, hrun, ?_⟩
  intro db' e heq
  rw [hrun] at heq
  have hpair := Except.ok.inj heq
  rw [show db' = db from (congrArg Prod.fst hpair).symm]

/-- Witness for C1: a model that answers in prose; on `sampleDb` the
parse fails and the database (hence `get_latest_l4_record`) is
unchanged. -/
theorem c1_witness :
    (∀ p t, proseModel p = Except.ok t → jsonLoads (pySanitize t) = none) ∧
    (∃ err, finalize_summary proseModel none 0 "conv-a" "u1" sampleDb
          = Except.ok (sampleDb, err) ∧
        ∀ db' e, finalize_summary proseModel none 0 "conv-a" "u1" sampleDb
            = Except.ok (db', e) →
          get_latest_l4_record 0 "conv-a" db' = get_latest_l4_record 0 "conv-a" sampleDb) := by
  have hpf : ∀ p t, proseModel p = Except.ok t → jsonLoads (pySanitize t) = none := by
    intro p t h
    injection h with h2
    rw [← h2]
    rfl
  exact ⟨hpf, c1_parse_failure_preserves_summary_store proseModel none 0 "conv-a" "u1"
    sampleDb hpf⟩

/-- Counterexample to claim C2 as stated: the empty JSON object — a
structured response missing all of `why_summary`, `what_summary`,
`how_summary` — is not treated as a parse failure; the parser accepts it
and a finalized record is inserted from it (the code calls `json.loads`
and never checks the fields). -/
theorem c2_counterexample_missing_fields_inserted :
    jsonLoads (pySanitize "\x7b\x7d") = some (Json.jobj []) ∧
    finalize_summary emptyObjModel none 0 "conv-a" "u1" sampleDb
      = Except.ok (insert_finalized_summary 0 "conv-a" "u1" (Json.jobj []) none sampleDb,
          none) ∧
    (insert_finalized_summary 0 "conv-a" "u1" (Json.jobj []) none sampleDb).l4.length
      = sampleDb.l4.length + 1 ∧
    ((insert_finalized_summary 0 "conv-a" "u1" (Json.jobj []) none sampleDb).l4.map
        L4Row.status) = ["finalized"] :=
  ⟨rfl, rfl, rfl, rfl⟩

/-- Claim C2 (amended): the Crystallizer's parser parses the sanitized
model response as a structured (JSON) value without validating its
fields: a structurally malformed response is a parse failure and no
finalized record is inserted from it, while any response that parses as
JSON — including one missing some or all of
`why_summary`/`what_summary`/`how_summary` — leads to a finalized record
insertion. -/
theorem c2_amended_parser_accepts_any_json (tmplFile : Option String) (key : Nat)
    (cid uid : String) (db : Db) (t : String)
    (hmsgs : load_messages_for_conversation key cid db ≠ []) :
    (jsonLoads (pySanitize t) = none →
      finalize_summary (fun _ => Except.ok t) tmplFile key cid uid db
        = Except.ok (db, some ("Failed to finalize summary: " ++ "JSONDecodeError"))) ∧
    (∀ j, jsonLoads (pySanitize t) = some j →
      finalize_summary (fun _ => Except.ok t) tmplFile key cid uid db
        = Except.ok (insert_finalized_summary key cid uid j
            (get_latest_l4_record key cid db).1 db, none)) := by
  constructor
  · intro hj
    exact finalize_run_parse_failure (fun _ => Except.ok t) tmplFile key cid uid db hmsgs
      t rfl hj
  · intro j hj
    exact finalize_run (fun _ => Except.ok t) tmplFile key cid uid db hmsgs t j rfl hj

/-- Witness for the amended C2 on `sampleDb` with the field-less
response. -/
theorem c2_witness :
    load_messages_for_conversation 0 "conv-a" sampleDb ≠ [] ∧
    jsonLoads (pySanitize "\x7b\x7d") = some (Json.jobj []) ∧
    finalize_summary (fun _ => Except.ok "\x7b\x7d") none 0 "conv-a" "u1" sampleDb
      = Except.ok (insert_finalized_summary 0 "conv-a" "u1" (Json.jobj [])
          (get_latest_l4_record 0 "conv-a" sampleDb).1 sampleDb, none) := by
  refine ⟨by decide, rfl, ?_⟩
  exact (c2_amended_parser_accepts_any_json none 0 "conv-a" "u1" sampleDb "\x7b\x7d"
    (by decide)).2 (Json.jobj []) rfl

/-- Claim C10: when the latest summary record of the conversation exists
but cannot be decrypted with the supplied key, `get_latest_l4_record`
returns `(none, none)` — exactly as when no record exists — so a
subsequent successful crystallization inserts its finalized record with
`supersedes_id` unset, starting a new chain instead of linking to the
undecryptable record. -/
theorem c10_undecryptable_latest_starts_new_chain (model : String → Except String String)
    (tmplFile : Option String) (key : Nat) (cid uid : String) (db : Db) (r : L4Row)
    (hlatest : latestL4 cid db = some r)
    (hundec : decrypt_message r.summary_data key = none)
    (hmsgs : load_messages_for_conversation key cid db ≠ [])
    (hm : ∀ p, ∃ t j, model p = Except.ok t ∧ jsonLoads (pySanitize t) = some j) :
    get_latest_l4_record key cid db = (none, none) ∧
    ∃ j, finalize_summary model tmplFile key cid uid db
        = Except.ok (insert_finalized_summary key cid uid j none db, none) := by
  have hgl : get_latest_l4_record key cid db = (none, none) := by
    unfold get_latest_l4_record handle_db_errors get_latest_l4_record_raw
    rw [hlatest]
    simp [hundec]
  refine ⟨hgl, ?_⟩
  obtain ⟨t, j, hmod, hj⟩ := hm (pyFormat (load_summarize_prompt tmplFile)
      (conversationText (load_messages_for_conversation key cid db))
      ((get_latest_l4_record key cid db).2.getD ""))
  have hrun := finalize_run model tmplFile key cid uid db hmsgs t j hmod hj
  rw [hgl] at hrun
  exact ⟨j, hrun⟩

/-- Witness for C10 on `sampleDbUndec`, whose only summary record is
encrypted under key 1 while the session key is 0. -/
theorem c10_witness :
    latestL4 "conv-a" sampleDbUndec
      = some { id := 1, user_id := "u1", conversation_id := "conv-a",
               summary_data := encrypt_message "old summary" 1, status := "finalized",
               supersedes_id := none, created_at := 1 } ∧
    get_latest_l4_record 0 "conv-a" sampleDbUndec = (none, none) ∧
    ∃ j, finalize_summary goodModel none 0 "conv-a" "u1" sampleDbUndec
        = Except.ok (insert_finalized_summary 0 "conv-a" "u1" j none sampleDbUndec, none) := by
  have h := c10_undecryptable_latest_starts_new_chain goodModel none 0 "conv-a" "u1"
    sampleDbUndec
    { id := 1, user_id := "u1", conversation_id := "conv-a",
      summary_data := encrypt_message "old summary" 1, status := "finalized",
      supersedes_id := none, created_at := 1 }
    rfl rfl (by decide) (fun p => ⟨_, goodSummaryObj, rfl, rfl⟩)
  exact ⟨rfl, h.1, h.2⟩

/-- Claim C6: for every conversation with N stored messages, the load
returns exactly N entries, the underlying rows are served in
non-decreasing `created_at` order (a permutation of exactly the stored
rows of the conversation), and a decryption failure on one message does
not abort the load: that entry becomes the sentinel
`"[Cannot Decrypt Message]"` while every decryptable entry is returned
decrypted. -/
theorem c6_load_messages_shape (key : Nat) (cid : String) (db : Db) :
    (load_messages_for_conversation key cid db).length
        = (db.l5.filter (fun r => r.conversation_id == cid)).length ∧
    List.Perm (orderByCreatedAtAsc (db.l5.filter (fun r => r.conversation_id == cid)))
        (db.l5.filter (fun r => r.conversation_id == cid)) ∧
    List.Sorted l5Le (orderByCreatedAtAsc (db.l5.filter (fun r => r.conversation_id == cid))) ∧
    ∀ (i : Nat) (r' : L5Row),
      (orderByCreatedAtAsc (db.l5.filter (fun r => r.conversation_id == cid)))[i]?
        = some r' →
      (∀ c, decrypt_message r'.content key = some c →
        (load_messages_for_conversation key cid db)[i]?
          = some { role := r'.role, content := c }) ∧
      (decrypt_message r'.content key = none →
        (load_messages_for_conversation key cid db)[i]?
          = some { role := r'.role, content := "[Cannot Decrypt Message]" }) := by
  refine ⟨?_, List.perm_insertionSort l5Le _, List.sorted_insertionSort l5Le _, ?_⟩
  · show (List.map (decryptRow key)
        (orderByCreatedAtAsc (db.l5.filter (fun r => r.conversation_id == cid)))).length = _
    rw [List.length_map]
    exact (List.perm_insertionSort l5Le _).length_eq
  · intro i r' hi
    have hload : (load_messages_for_conversation key cid db)[i]?
        = some (decryptRow key r') := by
      show (List.map (decryptRow key)
          (orderByCreatedAtAsc (db.l5.filter (fun r => r.conversation_id == cid))))[i]? = _
      rw [List.getElem?_map, hi]
      rfl
    constructor
    · intro c hc
      rw [hload]
      unfold decryptRow
      rw [hc]
    · intro hc
      rw [hload]
      unfold decryptRow
      rw [hc]

/-- Witness for C6 on `sampleDbMixed`: two stored rows, the first
decryptable, the second tampered; the load returns both in order, the
second as the sentinel. -/
theorem c6_witness :
    (orderByCreatedAtAsc (sampleDbMixed.l5.filter (fun r => r.conversation_id == "conv-a")))[0]?
      = some { conversation_id := "conv-a", role := "user",
               content := encrypt_message "hello" 0, user_id := "u1", created_at := 0 } ∧
    (orderByCreatedAtAsc (sampleDbMixed.l5.filter (fun r => r.conversation_id == "conv-a")))[1]?
      = some { conversation_id := "conv-a", role := "assistant",
               content := Ciphertext.raw "corrupted", user_id := "u1", created_at := 1 } ∧
    (load_messages_for_conversation 0 "conv-a" sampleDbMixed)[0]?
      = some { role := "user", content := "hello" } ∧
    (load_messages_for_conversation 0 "conv-a" sampleDbMixed)[1]?
      = some { role := "assistant", content := "[Cannot Decrypt Message]" } := by
  obtain ⟨hlen, hperm, hsort, hpt⟩ := c6_load_messages_shape 0 "conv-a" sampleDbMixed
  refine ⟨rfl, rfl, ?_, ?_⟩
  · exact (hpt 0 _ rfl).1 "hello" rfl
  · exact (hpt 1 _ rfl).2 rfl

/-- Claim C8: for every model response consisting of valid structured
content (a JSON object text, whitespace-stripped, brace-delimited)
wrapped in code-fence markers, the Crystallizer's sanitization strips the
wrapper before structural parsing, the parse succeeds, and the run
produces the same finalized record as if the response had been
unwrapped. -/
theorem c8_code_fence_wrapped_response_parses (tmplFile : Option String) (key : Nat)
    (cid uid : String) (db : Db) (s : String) (v : Json)
    (hstrip : pyStripWs s.data = s.data)
    (hhead : s.data.head? = some lbrace)
    (hlast : s.data.getLast? = some rbrace)
    (hv : jsonLoads s = some v)
    (hmsgs : load_messages_for_conversation key cid db ≠ []) :
    finalize_summary (fun _ => Except.ok (wrapFence s)) tmplFile key cid uid db
      = finalize_summary (fun _ => Except.ok s) tmplFile key cid uid db ∧
    finalize_summary (fun _ => Except.ok (wrapFence s)) tmplFile key cid uid db
      = Except.ok (insert_finalized_summary key cid uid v
          (get_latest_l4_record key cid db).1 db, none) := by
  have hsanL : pySanitizeL s.data = s.data := by
    unfold pySanitizeL
    rw [hstrip]
    unfold pyLstripSet pyRstripSet
    rw [dropWhile_head_not hhead (by decide)]
    exact rdropWhile_getLast_not hlast (by decide)
  have hsan : pySanitize s = s := congrArg String.mk hsanL
  have hB : jsonLoads (pySanitize s) = some v := by rw [hsan]; exact hv
  have hA : jsonLoads (pySanitize (wrapFence s)) = some v := by
    have e1 : pySanitize (wrapFence s) = String.mk ('\n' :: (s.data ++ ['\n'])) :=
      congrArg String.mk (pySanitizeL_wrapFence s)
    have e2 : jsonLoads (String.mk ('\n' :: (s.data ++ ['\n'])))
        = jsonLoads (String.mk s.data) :=
      jsonLoads_mk_congr _ _ (by rw [pyStripWs_newline_wrap])
    rw [e1, e2]
    exact hv
  have hrunW := finalize_run (fun _ => Except.ok (wrapFence s)) tmplFile key cid uid db
    hmsgs (wrapFence s) v rfl hA
  have hrunP := finalize_run (fun _ => Except.ok s) tmplFile key cid uid db hmsgs s v rfl hB
  exact ⟨hrunW.trans hrunP.symm, hrunW⟩

/-- Witness for C8: the empty-object response wrapped in a json code
fence parses and yields the same record as the bare response. -/
theorem c8_witness :
    pyStripWs ("\x7b\x7d" : String).data = ("\x7b\x7d" : String).data ∧
    jsonLoads "\x7b\x7d" = some (Json.jobj []) ∧
    (finalize_summary (fun _ => Except.ok (wrapFence "\x7b\x7d")) none 0 "conv-a" "u1" sampleDb
       = finalize_summary (fun _ => Except.ok "\x7b\x7d") none 0 "conv-a" "u1" sampleDb ∧
     finalize_summary (fun _ => Except.ok (wrapFence "\x7b\x7d")) none 0 "conv-a" "u1" sampleDb
       = Except.ok (insert_finalized_summary 0 "conv-a" "u1" (Json.jobj [])
           (get_latest_l4_record 0 "conv-a" sampleDb).1 sampleDb, none)) := by
  refine ⟨rfl, rfl, ?_⟩
  exact c8_code_fence_wrapped_response_parses none 0 "conv-a" "u1" sampleDb "\x7b\x7d"
    (Json.jobj []) rfl rfl rfl rfl (by decide)

/-- Claim C4: on a well-formed database, calling the Crystallizer twice
in a row on the same unchanged non-empty conversation (with the model
responding and both parses succeeding, and the conversation's existing
summary records decryptable) yields two finalized records; the second
record's `supersedes_id` equals the first record's id, and the first
record's `supersedes_id` is the id of the latest record (interim or
finalized) that existed when crystallization started, or unset if none
existed. -/
theorem c4_double_crystallization_chains (model : String → Except String String)
    (tmplFile : Option String) (key : Nat) (cid uid : String) (db : Db)
    (hWF : ∀ r ∈ db.l4, r.created_at < db.nextTime)
    (hmsgs : load_messages_for_conversation key cid db ≠ [])
    (hdec : ∀ r ∈ db.l4, r.conversation_id = cid →
        (decrypt_message r.summary_data key).isSome)
    (hm : ∀ p, ∃ t j, model p = Except.ok t ∧ jsonLoads (pySanitize t) = some j) :
    ∃ (j₁ j₂ : Json) (r₁ r₂ : L4Row) (db₁ db₂ : Db),
      finalize_summary model tmplFile key cid uid db = Except.ok (db₁, none) ∧
      finalize_summary model tmplFile key cid uid db₁ = Except.ok (db₂, none) ∧
      db₁.l4 = db.l4 ++ [r₁] ∧
      db₂.l4 = db.l4 ++ [r₁, r₂] ∧
      r₁.status = "finalized" ∧ r₂.status = "finalized" ∧
      r₂.supersedes_id = some r₁.id ∧
      r₁.supersedes_id = (latestL4 cid db).map L4Row.id := by
  obtain ⟨t₁, j₁, hmod₁, hj₁⟩ := hm (pyFormat (load_summarize_prompt tmplFile)
      (conversationText (load_messages_for_conversation key cid db))
      ((get_latest_l4_record key cid db).2.getD ""))
  have hrun₁ := finalize_run model tmplFile key cid uid db hmsgs t₁ j₁ hmod₁ hj₁
  set db₁ := insert_finalized_summary key cid uid j₁ (get_latest_l4_record key cid db).1 db
    with hdb₁
  have hmsgs₁ : load_messages_for_conversation key cid db₁ ≠ [] := by
    rw [hdb₁, load_after_insert]
    exact hmsgs
  obtain ⟨t₂, j₂, hmod₂, hj₂⟩ := hm (pyFormat (load_summarize_prompt tmplFile)
      (conversationText (load_messages_for_conversation key cid db₁))
      ((get_latest_l4_record key cid db₁).2.getD ""))
  have hrun₂ := finalize_run model tmplFile key cid uid db₁ hmsgs₁ t₂ j₂ hmod₂ hj₂
  have hgl₁ : get_latest_l4_record key cid db₁ = (some db.nextId, some (jsonDumps j₁)) := by
    rw [hdb₁]
    exact get_latest_after_insert key cid uid j₁ _ db hWF
  refine ⟨j₁, j₂,
    { id := db.nextId, user_id := uid, conversation_id := cid,
      summary_data := encrypt_message (jsonDumps j₁) key, status := "finalized",
      supersedes_id := (get_latest_l4_record key cid db).1, created_at := db.nextTime },
    { id := db₁.nextId, user_id := uid, conversation_id := cid,
      summary_data := encrypt_message (jsonDumps j₂) key, status := "finalized",
      supersedes_id := (get_latest_l4_record key cid db₁).1, created_at := db₁.nextTime },
    db₁, insert_finalized_summary key cid uid j₂ (get_latest_l4_record key cid db₁).1 db₁,
    hrun₁, hrun₂, by rw [hdb₁]; rfl, ?_, rfl, rfl, ?_, ?_⟩
  · rw [hdb₁]
    simp [insert_finalized_summary]
  · show (get_latest_l4_record key cid db₁).1 = some db.nextId
    rw [hgl₁]
  · exact get_latest_fst_eq key cid db hdec

/-- Witness for C4 on `sampleDb` with the three-field model response. -/
theorem c4_witness :
    (∀ r ∈ sampleDb.l4, r.created_at < sampleDb.nextTime) ∧
    load_messages_for_conversation 0 "conv-a" sampleDb ≠ [] ∧
    (∀ r ∈ sampleDb.l4, r.conversation_id = "conv-a" →
        (decrypt_message r.summary_data 0).isSome) ∧
    (∀ p, ∃ t j, goodModel p = Except.ok t ∧ jsonLoads (pySanitize t) = some j) ∧
    (∃ (j₁ j₂ : Json) (r₁ r₂ : L4Row) (db₁ db₂ : Db),
      finalize_summary goodModel none 0 "conv-a" "u1" sampleDb = Except.ok (db₁, none) ∧
      finalize_summary goodModel none 0 "conv-a" "u1" db₁ = Except.ok (db₂, none) ∧
      db₁.l4 = sampleDb.l4 ++ [r₁] ∧
      db₂.l4 = sampleDb.l4 ++ [r₁, r₂] ∧
      r₁.status = "finalized" ∧ r₂.status = "finalized" ∧
      r₂.supersedes_id = some r₁.id ∧
      r₁.supersedes_id = (latestL4 "conv-a" sampleDb).map L4Row.id) := by
  have h1 : ∀ r ∈ sampleDb.l4, r.created_at < sampleDb.nextTime := by simp [sampleDb]
  have h2 : load_messages_for_conversation 0 "conv-a" sampleDb ≠ [] := by decide
  have h3 : ∀ r ∈ sampleDb.l4, r.conversation_id = "conv-a" →
      (decrypt_message r.summary_data 0).isSome := by simp [sampleDb]
  have h4 : ∀ p, ∃ t j, goodModel p = Except.ok t ∧ jsonLoads (pySanitize t) = some j :=
    fun p => ⟨_, goodSummaryObj, rfl, rfl⟩
  exact ⟨h1, h2, h3, h4,
    c4_double_crystallization_chains goodModel none 0 "conv-a" "u1" sampleDb h1 h2 h3 h4⟩

end PCL
